import Mathlib

/-!
Verification development for the LightRAG Streamlit GUI
(`notebooks/streamlit-app-lightrag.py`).

The file shallowly embeds the session-state machine of the app:
the Settings record, the activity log (a FIFO-capped list of strings),
the RAG engine lifecycle (`test_api_key`, `init_rag`, the
`if not initialized: init_rag()` guard), the chat input handler
(success and exception branches), `handle_insert`, and the markdown
export (`handle_chat_download`).  External collaborators (the OpenAI
probe, the LightRAG engine's `aquery`/`ainsert`) are modelled as
explicit outcome parameters, mirroring how the code consumes them.
-/

/-! ### Python list slicing `xs[-n:]` and string slicing `s[:n]` -/

/-- Python `xs[-n:]`: the last `n` elements of a list (all of them when
`xs` is shorter than `n`). -/
def lastN (n : Nat) (l : List α) : List α := l.drop (l.length - n)

/-- Python `s[:n]` on a string: the first `n` characters. -/
def pyTake (n : Nat) (s : String) : String := ⟨s.data.take n⟩

theorem lastN_length_le (n : Nat) (l : List α) : (lastN n l).length ≤ n := by
  simp only [lastN, List.length_drop]
  omega

theorem lastN_of_length_le (n : Nat) (l : List α) (h : l.length ≤ n) :
    lastN n l = l := by
  simp only [lastN]
  rw [show l.length - n = 0 by omega]
  exact List.drop_zero l

/-- Re-capping after appending to an already-capped list is the same as
capping the full sequence: the key step behind the FIFO eviction law. -/
theorem lastN_append_lastN (n : Nat) (xs ys : List α) :
    lastN n (lastN n xs ++ ys) = lastN n (xs ++ ys) := by
  simp only [lastN]
  rw [← List.drop_append_of_le_length (by omega : xs.length - n ≤ xs.length)]
  rw [List.drop_drop]
  congr 1
  simp only [List.length_drop, List.length_append]
  omega

/-! ### The activity log (`add_activity_log`, source lines 619-633)

`st.session_state.activity_log.append(message)` followed by
`st.session_state.activity_log = st.session_state.activity_log[-50:]`. -/

def add_activity_log (message : String) (log : List String) : List String :=
  lastN 50 (log ++ [message])

/-- Appending a whole sequence of messages to an initially empty log. -/
def applyLog (msgs : List String) : List String :=
  msgs.foldl (fun log m => add_activity_log m log) []

theorem applyLog_foldl (msgs : List String) :
    ∀ acc : List String, acc.length ≤ 50 →
      msgs.foldl (fun log m => add_activity_log m log) acc =
        lastN 50 (acc ++ msgs) := by
  induction msgs with
  | nil =>
      intro acc h
      simp only [List.foldl_nil, List.append_nil]
      exact (lastN_of_length_le 50 acc h).symm
  | cons m ms ih =>
      intro acc h
      simp only [List.foldl_cons]
      rw [ih (add_activity_log m acc) (lastN_length_le 50 _)]
      simp only [add_activity_log]
      rw [lastN_append_lastN]
      simp

/-- C3: the activity log never holds more than 50 entries, and after
appending any sequence of messages (starting from the empty log) the stored
sequence is exactly the last 50 appended messages in their original relative
order (FIFO eviction of the oldest entries).  `msgs.drop (msgs.length - 50)`
is precisely the suffix of the last 50 messages. -/
theorem activity_log_capped_fifo (msgs : List String) :
    (applyLog msgs).length ≤ 50 ∧
      applyLog msgs = msgs.drop (msgs.length - 50) := by
  have h := applyLog_foldl msgs [] (by simp)
  simp only [List.nil_append] at h
  rw [applyLog, h]
  exact ⟨lastN_length_le 50 msgs, rfl⟩

/-! ### xxHash64 (`xxhash.xxh64(...).hexdigest()`)

The app fingerprints a prompt with `xxhash.xxh64(prompt.encode())
.hexdigest()[:8]`.  The XXH64 algorithm (seed 0) is embedded below over
byte lists, with all 64-bit arithmetic carried out in `Nat` modulo
`2 ^ 64`. -/

def M64 : Nat := 2 ^ 64

def xxPrime1 : Nat := 11400714785074694791
def xxPrime2 : Nat := 14029467366897019727
def xxPrime3 : Nat := 1609587929392839161
def xxPrime4 : Nat := 9650029242287828579
def xxPrime5 : Nat := 2870177450012600261

/-- 64-bit left rotation. -/
def rotl64 (x n : Nat) : Nat :=
  (((x % M64) <<< n) % M64) ||| ((x % M64) >>> (64 - n))

def xxRound (acc input : Nat) : Nat :=
  rotl64 ((acc + input * xxPrime2) % M64) 31 * xxPrime1 % M64

def xxMergeRound (acc v : Nat) : Nat :=
  ((acc ^^^ xxRound 0 v) * xxPrime1 + xxPrime4) % M64

/-- Read a little-endian unsigned integer from a byte list. -/
def readLE (bs : List Nat) : Nat :=
  bs.foldr (fun b acc => b + 256 * acc) 0

def xxStripe (v : Nat × Nat × Nat × Nat) (block : List Nat) :
    Nat × Nat × Nat × Nat :=
  (xxRound v.1 (readLE (block.take 8)),
   xxRound v.2.1 (readLE ((block.drop 8).take 8)),
   xxRound v.2.2.1 (readLE ((block.drop 16).take 8)),
   xxRound v.2.2.2 (readLE ((block.drop 24).take 8)))

def xxConsumeStripes (v : Nat × Nat × Nat × Nat) (bs : List Nat) :
    (Nat × Nat × Nat × Nat) × List Nat :=
  if h : 32 ≤ bs.length then
    xxConsumeStripes (xxStripe v (bs.take 32)) (bs.drop 32)
  else (v, bs)
  termination_by bs.length
  decreasing_by simp only [List.length_drop]; omega

def xxConsume8 (h : Nat) (bs : List Nat) : Nat × List Nat :=
  if hl : 8 ≤ bs.length then
    xxConsume8 ((rotl64 (h ^^^ xxRound 0 (readLE (bs.take 8))) 27
                  * xxPrime1 + xxPrime4) % M64) (bs.drop 8)
  else (h, bs)
  termination_by bs.length
  decreasing_by simp only [List.length_drop]; omega

def xxConsume1 (h : Nat) : List Nat → Nat
  | [] => h
  | b :: rest =>
      xxConsume1 (rotl64 (h ^^^ (b * xxPrime5 % M64)) 11 * xxPrime1 % M64) rest

def xxAvalanche (h : Nat) : Nat :=
  let h1 := h ^^^ (h >>> 33)
  let h2 := h1 * xxPrime2 % M64
  let h3 := h2 ^^^ (h2 >>> 29)
  let h4 := h3 * xxPrime3 % M64
  h4 ^^^ (h4 >>> 32)

/-- XXH64 with seed 0 over a byte list. -/
def xxh64 (bs : List Nat) : Nat :=
  let len := bs.length
  let acc :=
    if 32 ≤ len then
      let r := xxConsumeStripes
        ((xxPrime1 + xxPrime2) % M64, xxPrime2, 0, M64 - xxPrime1) bs
      let v := r.1
      let hA := (rotl64 v.1 1 + rotl64 v.2.1 7 + rotl64 v.2.2.1 12 +
                 rotl64 v.2.2.2 18) % M64
      (xxMergeRound (xxMergeRound (xxMergeRound (xxMergeRound hA v.1)
        v.2.1) v.2.2.1) v.2.2.2, r.2)
    else (xxPrime5, bs)
  let h1 := (acc.1 + len) % M64
  let r8 := xxConsume8 h1 acc.2
  let r4 :=
    if 4 ≤ r8.2.length then
      ((rotl64 (r8.1 ^^^ (readLE (r8.2.take 4) * xxPrime1 % M64)) 23
         * xxPrime2 + xxPrime3) % M64, r8.2.drop 4)
    else r8
  let h4 := xxConsume1 r4.1 r4.2
  xxAvalanche h4

/-! ### UTF-8 encoding (`prompt.encode()`) and the hex digest -/

/-- UTF-8 encoding of a single character, as a byte list. -/
def utf8EncodeChar (c : Char) : List Nat :=
  let v := c.toNat
  if v < 128 then [v]
  else if v < 2048 then [192 + v / 64, 128 + v % 64]
  else if v < 65536 then
    [224 + v / 4096, 128 + v / 64 % 64, 128 + v % 64]
  else
    [240 + v / 262144, 128 + v / 4096 % 64, 128 + v / 64 % 64, 128 + v % 64]

/-- UTF-8 encoding of a string, as a byte list. -/
def utf8Bytes (s : String) : List Nat :=
  (s.data.map utf8EncodeChar).join

/-- Lowercase hexadecimal digit for a nibble. -/
def hexDigitChar (k : Nat) : Char :=
  if k < 10 then Char.ofNat (48 + k) else Char.ofNat (87 + k)

/-- The 16 lowercase hex characters of a 64-bit value, most significant
nibble first (Python's `hexdigest()`). -/
def hexChars (n : Nat) : List Char :=
  (List.range 16).map (fun i => hexDigitChar (n >>> (4 * (15 - i)) % 16))

def hexAlphabet : String := "0123456789abcdef"

/-- `xxhash.xxh64(prompt.encode()).hexdigest()[:8]` (source line 686). -/
def fingerprint (prompt : String) : String :=
  ⟨(hexChars (xxh64 (utf8Bytes prompt))).take 8⟩

theorem hexDigitChar_mem_hexAlphabet :
    ∀ k, k < 16 → hexDigitChar k ∈ hexAlphabet.data := by decide

theorem fingerprint_length (prompt : String) :
    (fingerprint prompt).length = 8 := by
  simp [fingerprint, String.length, hexChars]

theorem fingerprint_hex (prompt : String) :
    ∀ c ∈ (fingerprint prompt).data, c ∈ hexAlphabet.data := by
  intro c hc
  simp only [fingerprint] at hc
  have hc' : c ∈ hexChars (xxh64 (utf8Bytes prompt)) :=
    List.take_subset 8 _ hc
  simp only [hexChars, List.mem_map, List.mem_range] at hc'
  obtain ⟨i, _, rfl⟩ := hc'
  exact hexDigitChar_mem_hexAlphabet _ (Nat.mod_lt _ (by decide))

/-! ### Data model

`st.session_state.settings` (source lines 638-645), the engine handle,
chat messages with their metadata dictionaries, and the whole session
state. -/

def DEFAULT_LLM_MODEL : String := "gpt-4o-mini-2024-07-18"
def DEFAULT_EMBEDDER_MODEL : String := "text-embedding-ada-002"

structure Settings where
  api_key : String
  search_mode : String
  llm_model : String
  embedding_model : String
  system_prompt : String
  temperature : ℚ
deriving DecidableEq

/-- The LightRAG instance held in `st.session_state.rag`, tagged with the
Settings it was constructed from. -/
structure EngineHandle where
  builtFrom : Settings
deriving DecidableEq

inductive Role where
  | user
  | assistant
deriving DecidableEq

/-- The metadata dictionary attached to a chat message; every key the app
ever writes is an optional field. -/
structure Metadata where
  timestamp : Option String := none
  search_mode : Option String := none
  llm_model : Option String := none
  embedding_model : Option String := none
  temperature : Option ℚ := none
  prompt_hash : Option String := none
  query_info : Option String := none
  error : Option String := none
deriving DecidableEq

structure Message where
  role : Role
  content : String
  metadata : Metadata
deriving DecidableEq

/-- The session state: `st.session_state.initialized`, `.settings`,
`.rag`, `.messages`, `.activity_log`, plus the visible UI side effects
(`st.error` calls, whether `show_api_key_form` ran) and a construction
counter instrumenting how many times `LightRAG(...)` was evaluated. -/
structure AppState where
  initialized : Bool
  settings : Settings
  rag : Option EngineHandle
  messages : List Message
  activity_log : List String
  errors_shown : List String
  key_form_shown : Bool
  constructions : Nat
deriving DecidableEq

/-- Outcome of the live credential probe performed by `test_api_key`
(an embeddings call plus a chat completion against OpenAI). -/
inductive ProbeOutcome where
  | ok (test_response : String)
  | exn (err : String)
deriving DecidableEq

/-- Outcome of `st.session_state.rag.aquery(prompt, ...)`. -/
inductive QueryOutcome where
  | ok (response : String)
  | exn (err : String)
deriving DecidableEq

/-- Outcome of `st.session_state.rag.ainsert(content)`; `ok b` is the
returned truthiness (`b = true` iff relationships were extracted). -/
inductive InsertOutcome where
  | ok (success : Bool)
  | exn (err : String)
deriving DecidableEq

/-- `add_activity_log` acting on the session state. -/
def logA (message : String) (s : AppState) : AppState :=
  { s with activity_log := add_activity_log message s.activity_log }

/-- `st.error(...)` acting on the session state. -/
def showError (message : String) (s : AppState) : AppState :=
  { s with errors_shown := s.errors_shown ++ [message] }

theorem logA_messages (m : String) (t : AppState) :
    (logA m t).messages = t.messages := rfl

theorem logA_rag (m : String) (t : AppState) : (logA m t).rag = t.rag := rfl

theorem logA_initialized (m : String) (t : AppState) :
    (logA m t).initialized = t.initialized := rfl

theorem logA_constructions (m : String) (t : AppState) :
    (logA m t).constructions = t.constructions := rfl

theorem logA_settings (m : String) (t : AppState) :
    (logA m t).settings = t.settings := rfl

theorem logA_errors_shown (m : String) (t : AppState) :
    (logA m t).errors_shown = t.errors_shown := rfl

theorem logA_activity_log (m : String) (t : AppState) :
    (logA m t).activity_log = add_activity_log m t.activity_log := rfl

theorem showError_messages (m : String) (t : AppState) :
    (showError m t).messages = t.messages := rfl

theorem showError_rag (m : String) (t : AppState) :
    (showError m t).rag = t.rag := rfl

theorem showError_initialized (m : String) (t : AppState) :
    (showError m t).initialized = t.initialized := rfl

theorem showError_constructions (m : String) (t : AppState) :
    (showError m t).constructions = t.constructions := rfl

theorem showError_settings (m : String) (t : AppState) :
    (showError m t).settings = t.settings := rfl

theorem showError_activity_log (m : String) (t : AppState) :
    (showError m t).activity_log = t.activity_log := rfl

theorem showError_errors_shown (m : String) (t : AppState) :
    (showError m t).errors_shown = t.errors_shown ++ [m] := rfl

/-! ### Credential check and engine initialization
(`test_api_key` lines 115-157, `init_rag` lines 175-214, the guard at
lines 655-657, `handle_settings_update` lines 660-662) -/

def testLogMsg (test_response : String) : String :=
  "[T] Test prompt: What is LightRAG?\n[@] " ++ pyTake 100 test_response ++ "..."

def apiKeyRequiredMsg : String :=
  "OpenAI API key is required. Please enter your API key in the form below."

def apiErrorMsg (e : String) : String :=
  "API Error. Please ensure: 1. You have entered a valid OpenAI API key " ++
  "2. Your API key has access to the text-embedding-ada-002 model " ++
  "Error details: " ++ e

/-- `test_api_key()`: empty key or a failing probe shows an error, shows
the API-key form and returns `false`; a passing probe logs the `[T]` test
line and returns `true`. -/
def test_api_key (s : AppState) (probe : ProbeOutcome) : AppState × Bool :=
  if s.settings.api_key = "" then
    ({ showError apiKeyRequiredMsg s with key_form_shown := true }, false)
  else
    match probe with
    | .ok resp => (logA (testLogMsg resp) s, true)
    | .exn e =>
        ({ showError (apiErrorMsg e) s with key_form_shown := true }, false)

/-- `get_llm_config`: only the two listed models are supported; anything
else raises `ValueError`. -/
def get_llm_config (model_name : String) : Except String String :=
  if model_name = DEFAULT_LLM_MODEL ∨ model_name = "gpt-4o-mini" then
    .ok model_name
  else .error ("Unsupported LLM model: " ++ model_name)

/-- `get_embedding_config`: returns `(dim, max_tokens)` for the two known
embedders, raises `ValueError` otherwise. -/
def get_embedding_config (model_name : String) : Except String (Nat × Nat) :=
  if model_name = "text-embedding-ada-002" then .ok (1536, 8192)
  else if model_name = "text-embedding-3-small" then .ok (1536, 8191)
  else .error ("Unsupported embedding model: " ++ model_name)

def graphStatsMsg (nodes edges : Nat) : String :=
  "[*] Records: " ++ toString nodes ++ " nodes, " ++ toString edges ++ " edges"

/-- `init_rag()`: test the API key (returning `False` without building
anything when it fails), resolve the model configs (a `ValueError`
propagates as `.error`), construct the `LightRAG` instance from the
current settings, set `initialized`, log the persisted graph stats when
a graph exists, and return `True`.  `graph` is the optional
`chunk_entity_relation_graph` node/edge count of the fresh instance. -/
def init_rag (s : AppState) (probe : ProbeOutcome) (graph : Option (Nat × Nat)) :
    Except String (AppState × Bool) :=
  let r := test_api_key s probe
  if r.2 = false then .ok (r.1, false)
  else
    match get_llm_config r.1.settings.llm_model with
    | .error e => .error e
    | .ok _llm_name =>
      match get_embedding_config r.1.settings.embedding_model with
      | .error e => .error e
      | .ok _cfg =>
        let s2 := { r.1 with
          rag := some ⟨r.1.settings⟩,
          initialized := true,
          constructions := r.1.constructions + 1 }
        let s3 := match graph with
          | some (n, m) => logA (graphStatsMsg n m) s2
          | none => s2
        .ok (s3, true)

/-- The per-interaction initialization guard (source lines 655-657):
`if not st.session_state.initialized: init_rag()`. -/
def ensure_ready (s : AppState) (probe : ProbeOutcome)
    (graph : Option (Nat × Nat)) : Except String AppState :=
  if s.initialized then .ok s
  else (init_rag s probe graph).map (fun r => r.1)

/-- `handle_settings_update()`: force reinitialization. -/
def handle_settings_update (s : AppState) : AppState :=
  { s with initialized := false }

/-- The settings dialog with "Apply Settings" pressed: the form fields
overwrite the settings record and `handle_settings_update` clears the
`initialized` flag. -/
def apply_settings (s : AppState) (new : Settings) : AppState :=
  handle_settings_update { s with settings := new }

/-! ### The chat input handler (source lines 665-739) -/

def questionLog (prompt : String) : String :=
  "[?] Q: " ++
    (if 50 < prompt.length then pyTake 50 prompt ++ "..." else prompt)

def answerLog (response : String) : String :=
  "[@] A: " ++
    (if 50 < response.length then pyTake 50 response ++ "..." else response)

def errorLogMsg (e : String) : String :=
  "[!] " ++ ("Error generating response: " ++ e)

def fallbackResponse : String :=
  "I apologize, but I encountered an error while processing your request."

def queryInfoString (st : Settings) (prompt : String) : String :=
  st.search_mode ++ "@" ++ st.llm_model ++ " #" ++ fingerprint prompt

/-- The message appended on a successful query (source lines 698-711). -/
def successMessage (st : Settings) (prompt response now : String) : Message :=
  { role := .assistant,
    content := response,
    metadata := {
      timestamp := some now,
      search_mode := some st.search_mode,
      llm_model := some st.llm_model,
      embedding_model := some st.embedding_model,
      temperature := some st.temperature,
      prompt_hash := some (fingerprint prompt),
      query_info := some (queryInfoString st prompt) } }

/-- The fallback message appended when the query raises
(source lines 724-734): settings fields and the stringified exception,
no timestamp, no temperature, no fingerprint, no query_info. -/
def fallbackMessage (st : Settings) (e : String) : Message :=
  { role := .assistant,
    content := fallbackResponse,
    metadata := {
      search_mode := some st.search_mode,
      llm_model := some st.llm_model,
      embedding_model := some st.embedding_model,
      error := some e } }

/-- The chat turn for one submitted prompt (source lines 672-739):
log the `[?]` question line; on success append the response message and
log `[@]`; on exception log `[!]`, append the fallback message, and log
`[!]` again.  `now` is `time.strftime` at the moment of the turn. -/
def handle_chat_input (s : AppState) (prompt : String) (q : QueryOutcome)
    (now : String) : AppState :=
  let s0 := logA (questionLog prompt) s
  match q with
  | .ok response =>
      let msg := successMessage s0.settings prompt response now
      let s1 := { s0 with messages := s0.messages ++ [msg] }
      logA (answerLog response) s1
  | .exn e =>
      let s1 := logA (errorLogMsg e) s0
      let msg := fallbackMessage s1.settings e
      let s2 := { s1 with messages := s1.messages ++ [msg] }
      logA (errorLogMsg e) s2

/-! ### Document insertion (`handle_insert` lines 742-767 and the paste
tab's caller guard at lines 244-246) -/

def processingLogMsg (content : String) : String :=
  "[*] Processing content (" ++ toString content.length ++ " chars)..."

def addedLogMsg (content : String) : String :=
  "[+] Added content (" ++ toString content.length ++ " chars)"

def noRelationshipsLogMsg : String :=
  "[-] Failed to extract relationships from content"

def noRelationshipsErrorMsg : String :=
  "Failed to insert content - no relationships extracted"

/-- `handle_insert(content)`: a silent no-op when no engine instance
exists; otherwise verify the API key, log the `[*]` processing line, run
the engine's `ainsert`, and record the outcome (`[+]` on success, an
error plus `[-]` when no relationships were extracted, an error plus
`[!]` when the call raises). -/
def handle_insert (s : AppState) (content : String) (probe : ProbeOutcome)
    (ins : InsertOutcome) : AppState :=
  match s.rag with
  | none => s
  | some _ =>
    let r := test_api_key s probe
    if r.2 = false then r.1
    else
      let s2 := logA (processingLogMsg content) r.1
      match ins with
      | .ok true => logA (addedLogMsg content) s2
      | .ok false =>
          logA noRelationshipsLogMsg (showError noRelationshipsErrorMsg s2)
      | .exn e =>
          logA ("[!] Insert error: " ++ e)
            (showError ("An error occurred: " ++ e) s2)

/-- The paste tab's insert button (source lines 244-246): `handle_insert`
runs only when the text area is non-empty (Python truthiness). -/
def insert_clicked (s : AppState) (text_input : String)
    (probe : ProbeOutcome) (ins : InsertOutcome) : AppState :=
  if text_input = "" then s else handle_insert s text_input probe ins

/-! ### Markdown export (`handle_chat_download`, source lines 463-505) -/

inductive ExportError where
  | emptyHistory
deriving DecidableEq

/-- Python's `"\n".join`. -/
def joinLines : List String → String
  | [] => ""
  | [x] => x
  | x :: y :: rest => x ++ "\n" ++ joinLines (y :: rest)

def roleLabel : Role → String
  | .user => "User"
  | .assistant => "Assistant"

/-- The header block of the exported transcript: title, export
timestamp, and the current Settings snapshot. -/
def headerLines (st : Settings) (now : String) : List String :=
  ["# LightRAG Chat Session\n",
   "*Exported on " ++ now ++ "*\n",
   "\n## Settings\n",
   "- Search Mode: " ++ st.search_mode,
   "- LLM Model: " ++ st.llm_model,
   "- Embedding Model: " ++ st.embedding_model,
   "- Temperature: " ++ toString st.temperature,
   "- System Prompt: " ++ st.system_prompt ++ "\n",
   "\n## Conversation\n"]

/-- The lines contributed by one message: role heading with timestamp,
the content, and (for assistant messages) the `query_info` / `error`
metadata as blockquotes. -/
def msgLines (m : Message) : List String :=
  ["\n### " ++ roleLabel m.role ++ " (" ++ m.metadata.timestamp.getD "N/A" ++ ")",
   "\n" ++ m.content ++ "\n"] ++
  (if m.role = Role.assistant then
    (match m.metadata.query_info with
     | some q => ["\n> " ++ q]
     | none => []) ++
    (match m.metadata.error with
     | some e => ["\n> Error: " ++ e]
     | none => [])
   else [])

/-- `handle_chat_download()`: fails on an empty history, otherwise
renders header lines followed by each message's lines, joined with
newlines. -/
def handle_chat_download (s : AppState) (now : String) :
    Except ExportError String :=
  if s.messages.isEmpty then .error .emptyHistory
  else
    .ok (joinLines (headerLines s.settings now ++
      (s.messages.map msgLines).join))

/-! ### C1: no rebuild while initialized with unchanged settings -/

/-- C1: once an engine instance has been successfully constructed by a
first `ensure_ready` call (the `initialized` flag is set and the handle
is tagged with the current settings), a second `ensure_ready` call with
no settings change in between returns the same session state unchanged
and performs no further engine construction: the construction count
stays at 1. -/
theorem ensure_ready_no_rebuild
    (s s1 : AppState) (p p2 : ProbeOutcome) (g g2 : Option (Nat × Nat))
    (hinit : s.initialized = false) (hc : s.constructions = 0)
    (h1 : ensure_ready s p g = Except.ok s1) (h2 : s1.initialized = true) :
    ensure_ready s1 p2 g2 = Except.ok s1 ∧ s1.constructions = 1 ∧
      s1.rag = some ⟨s1.settings⟩ := by
  refine ⟨by simp [ensure_ready, h2], ?_⟩
  rw [ensure_ready, hinit] at h1
  simp only [Bool.false_eq_true, if_false] at h1
  by_cases hk : s.settings.api_key = ""
  · simp [init_rag, test_api_key, hk, Except.map] at h1
    rw [← h1] at h2
    simp [showError, hinit] at h2
  · cases p with
    | exn e =>
        simp [init_rag, test_api_key, hk, Except.map] at h1
        rw [← h1] at h2
        simp [showError, hinit] at h2
    | ok resp =>
        by_cases hllm : s.settings.llm_model = DEFAULT_LLM_MODEL ∨
            s.settings.llm_model = "gpt-4o-mini"
        · by_cases hemb : s.settings.embedding_model = "text-embedding-ada-002"
          · rcases g with _ | ⟨n, m⟩ <;>
              · simp [init_rag, test_api_key, hk, get_llm_config, hllm,
                  get_embedding_config, hemb, logA, Except.map] at h1
                rw [← h1]
                simp [hc]
          · by_cases hemb2 : s.settings.embedding_model = "text-embedding-3-small"
            · rcases g with _ | ⟨n, m⟩ <;>
                · simp [init_rag, test_api_key, hk, get_llm_config, hllm,
                    get_embedding_config, hemb, hemb2, logA, Except.map] at h1
                  rw [← h1]
                  simp [hc]
            · simp [init_rag, test_api_key, hk, get_llm_config, hllm,
                get_embedding_config, hemb, hemb2, logA, Except.map] at h1
        · simp [init_rag, test_api_key, hk, get_llm_config, hllm, logA,
            Except.map] at h1

/-! ### Concrete demo states used by the witnesses -/

def demoSettings : Settings :=
  { api_key := "sk-demo",
    search_mode := "hybrid",
    llm_model := DEFAULT_LLM_MODEL,
    embedding_model := DEFAULT_EMBEDDER_MODEL,
    system_prompt := "You are a helpful AI assistant.",
    temperature := 7 / 10 }

/-- A fresh session: valid key present, engine not yet built. -/
def initDemo : AppState :=
  { initialized := false,
    settings := demoSettings,
    rag := none,
    messages := [],
    activity_log := [],
    errors_shown := [],
    key_form_shown := false,
    constructions := 0 }

/-- The session after one successful `init_rag` run on `initDemo` with a
probe answering "ok" and no persisted graph. -/
def readyDemo : AppState :=
  { initialized := true,
    settings := demoSettings,
    rag := some ⟨demoSettings⟩,
    messages := [],
    activity_log := [testLogMsg "ok"],
    errors_shown := [],
    key_form_shown := false,
    constructions := 1 }

/-- Witness for C1 at a concrete session. -/
theorem ensure_ready_no_rebuild_witness :
    initDemo.initialized = false ∧ initDemo.constructions = 0 ∧
    ensure_ready initDemo (ProbeOutcome.ok "ok") none = Except.ok readyDemo ∧
    readyDemo.initialized = true ∧
    (ensure_ready readyDemo (ProbeOutcome.ok "ok") none = Except.ok readyDemo ∧
      readyDemo.constructions = 1 ∧
      readyDemo.rag = some ⟨readyDemo.settings⟩) :=
  ⟨rfl, rfl, rfl, rfl,
    ensure_ready_no_rebuild initDemo readyDemo (ProbeOutcome.ok "ok")
      (ProbeOutcome.ok "ok") none none rfl rfl rfl rfl⟩

/-! ### C4: a settings change invalidates the engine and forces exactly
one reconstruction -/

/-- C4: updating any tracked settings field through the settings dialog
marks the engine invalid (`initialized := false`), and the next
`ensure_ready` call that succeeds performs exactly one new engine
construction whose handle is tagged with the new settings, discarding
the prior handle. -/
theorem settings_change_forces_rebuild
    (s s1 : AppState) (new : Settings) (p : ProbeOutcome)
    (g : Option (Nat × Nat))
    (hchg : new ≠ s.settings)
    (h1 : ensure_ready (apply_settings s new) p g = Except.ok s1)
    (h2 : s1.initialized = true) :
    (apply_settings s new).initialized = false ∧
      s1.constructions = s.constructions + 1 ∧
      s1.rag = some ⟨new⟩ := by
  refine ⟨rfl, ?_⟩
  rw [ensure_ready] at h1
  simp only [apply_settings, handle_settings_update, Bool.false_eq_true,
    if_false] at h1
  by_cases hk : new.api_key = ""
  · simp [init_rag, test_api_key, hk, Except.map] at h1
    rw [← h1] at h2
    simp [showError] at h2
  · cases p with
    | exn e =>
        simp [init_rag, test_api_key, hk, Except.map] at h1
        rw [← h1] at h2
        simp [showError] at h2
    | ok resp =>
        by_cases hllm : new.llm_model = DEFAULT_LLM_MODEL ∨
            new.llm_model = "gpt-4o-mini"
        · by_cases hemb : new.embedding_model = "text-embedding-ada-002"
          · rcases g with _ | ⟨n, m⟩ <;>
              · simp [init_rag, test_api_key, hk, get_llm_config, hllm,
                  get_embedding_config, hemb, logA, Except.map] at h1
                rw [← h1]
                simp
          · by_cases hemb2 : new.embedding_model = "text-embedding-3-small"
            · rcases g with _ | ⟨n, m⟩ <;>
                · simp [init_rag, test_api_key, hk, get_llm_config, hllm,
                    get_embedding_config, hemb, hemb2, logA, Except.map] at h1
                  rw [← h1]
                  simp
            · simp [init_rag, test_api_key, hk, get_llm_config, hllm,
                get_embedding_config, hemb, hemb2, logA, Except.map] at h1
        · simp [init_rag, test_api_key, hk, get_llm_config, hllm, logA,
            Except.map] at h1

def newDemoSettings : Settings :=
  { demoSettings with llm_model := "gpt-4o-mini" }

/-- The session after applying `newDemoSettings` on top of `readyDemo`
and letting `ensure_ready` rebuild the engine. -/
def rebuiltDemo : AppState :=
  { initialized := true,
    settings := newDemoSettings,
    rag := some ⟨newDemoSettings⟩,
    messages := [],
    activity_log := [testLogMsg "ok", testLogMsg "ok"],
    errors_shown := [],
    key_form_shown := false,
    constructions := 2 }

/-- Witness for C4 at a concrete session: changing `llm_model`. -/
theorem settings_change_forces_rebuild_witness :
    newDemoSettings ≠ readyDemo.settings ∧
    ensure_ready (apply_settings readyDemo newDemoSettings)
      (ProbeOutcome.ok "ok") none = Except.ok rebuiltDemo ∧
    rebuiltDemo.initialized = true ∧
    ((apply_settings readyDemo newDemoSettings).initialized = false ∧
      rebuiltDemo.constructions = readyDemo.constructions + 1 ∧
      rebuiltDemo.rag = some ⟨newDemoSettings⟩) :=
  ⟨by decide, rfl, rfl,
    settings_change_forces_rebuild readyDemo rebuiltDemo newDemoSettings
      (ProbeOutcome.ok "ok") none (by decide) rfl rfl⟩

/-! ### C6: credential failures never construct the engine -/

/-- C6: when the credential is empty or the live verification probe (the
minimal embedding call plus completion call) fails, `init_rag` returns
`False` (the invalid-credential signal), shows the API-key form to
request a new credential, and does not construct the engine: the handle,
the `initialized` flag and the construction count are all unchanged, and
the `ensure_ready` guard surfaces the same unmodified-but-for-UI state. -/
theorem invalid_credential_no_construction
    (s : AppState) (p : ProbeOutcome) (g : Option (Nat × Nat))
    (hbad : s.settings.api_key = "" ∨ ∃ e, p = ProbeOutcome.exn e) :
    ∃ s', init_rag s p g = Except.ok (s', false) ∧
      s'.constructions = s.constructions ∧
      s'.rag = s.rag ∧
      s'.initialized = s.initialized ∧
      s'.key_form_shown = true ∧
      (s.initialized = false → ensure_ready s p g = Except.ok s') := by
  by_cases hk : s.settings.api_key = ""
  · refine ⟨{ showError apiKeyRequiredMsg s with key_form_shown := true },
      ?_, rfl, rfl, rfl, rfl, ?_⟩
    · simp [init_rag, test_api_key, hk]
    · intro hi
      simp [ensure_ready, hi, init_rag, test_api_key, hk, Except.map]
  · rcases hbad with hk' | ⟨e, rfl⟩
    · exact absurd hk' hk
    · refine ⟨{ showError (apiErrorMsg e) s with key_form_shown := true },
        ?_, rfl, rfl, rfl, rfl, ?_⟩
      · simp [init_rag, test_api_key, hk]
      · intro hi
        simp [ensure_ready, hi, init_rag, test_api_key, hk, Except.map]

/-- A fresh session with no credential at all. -/
def noKeyDemo : AppState :=
  { initDemo with settings := { demoSettings with api_key := "" } }

/-- Witness for C6 at a concrete session with an empty credential. -/
theorem invalid_credential_no_construction_witness :
    (noKeyDemo.settings.api_key = "" ∨
      ∃ e, ProbeOutcome.ok "x" = ProbeOutcome.exn e) ∧
    (∃ s', init_rag noKeyDemo (ProbeOutcome.ok "x") none =
        Except.ok (s', false) ∧
      s'.constructions = noKeyDemo.constructions ∧
      s'.rag = noKeyDemo.rag ∧
      s'.initialized = noKeyDemo.initialized ∧
      s'.key_form_shown = true ∧
      (noKeyDemo.initialized = false →
        ensure_ready noKeyDemo (ProbeOutcome.ok "x") none = Except.ok s')) :=
  ⟨Or.inl rfl,
    invalid_credential_no_construction noKeyDemo (ProbeOutcome.ok "x") none
      (Or.inl rfl)⟩

/-! ### C5: the message appended on a successful query -/

/-- C5: on a successful query the pipeline appends exactly one message:
role `assistant`, content equal to the engine's response text, metadata
carrying the turn timestamp, the four current Settings fields stored in
message metadata (search mode, LLM model, embedding model, temperature),
the prompt fingerprint — 8 lowercase hexadecimal characters of the
xxHash64 digest of the prompt's UTF-8 bytes — and the rendered
`query_info` string `{mode}@{llm_model} #{fingerprint}`. -/
theorem query_success_appends_message
    (s : AppState) (prompt response now : String) :
    ∃ msg : Message,
      (handle_chat_input s prompt (QueryOutcome.ok response) now).messages =
        s.messages ++ [msg] ∧
      msg.role = Role.assistant ∧
      msg.content = response ∧
      msg.metadata.timestamp = some now ∧
      msg.metadata.search_mode = some s.settings.search_mode ∧
      msg.metadata.llm_model = some s.settings.llm_model ∧
      msg.metadata.embedding_model = some s.settings.embedding_model ∧
      msg.metadata.temperature = some s.settings.temperature ∧
      msg.metadata.prompt_hash = some (fingerprint prompt) ∧
      (fingerprint prompt).length = 8 ∧
      (∀ c ∈ (fingerprint prompt).data, c ∈ hexAlphabet.data) ∧
      msg.metadata.query_info =
        some (s.settings.search_mode ++ "@" ++ s.settings.llm_model ++
          " #" ++ fingerprint prompt) ∧
      msg.metadata.error = none :=
  ⟨successMessage s.settings prompt response now,
    rfl, rfl, rfl, rfl, rfl, rfl, rfl, rfl, rfl,
    fingerprint_length prompt, fingerprint_hex prompt, rfl, rfl⟩

/-! ### C2: the fallback message appended when the query raises -/

/-- What the error-path fallback message satisfies; see
`query_error_fallback_message`. -/
def QueryFailureSpec (s : AppState) (prompt e now : String) : Prop :=
  (handle_chat_input s prompt (QueryOutcome.exn e) now).messages =
    s.messages ++ [fallbackMessage s.settings e] ∧
  (fallbackMessage s.settings e).role = Role.assistant ∧
  (fallbackMessage s.settings e).content = fallbackResponse ∧
  (fallbackMessage s.settings e).metadata.error = some e ∧
  (fallbackMessage s.settings e).metadata.error ≠ some "" ∧
  (fallbackMessage s.settings e).metadata.search_mode =
    some s.settings.search_mode ∧
  (fallbackMessage s.settings e).metadata.llm_model =
    some s.settings.llm_model ∧
  (fallbackMessage s.settings e).metadata.embedding_model =
    some s.settings.embedding_model ∧
  (fallbackMessage s.settings e).metadata.temperature = none ∧
  (fallbackMessage s.settings e).metadata.timestamp = none ∧
  (fallbackMessage s.settings e).metadata.query_info = none

/-- C2 (amended): for every prompt, the query pipeline is total — when
the engine call raises it appends exactly one assistant message whose
content is the fixed apology string, whose `metadata.error` is the
(non-empty) stringified exception, whose metadata carries the
search-mode, LLM-model and embedding-model Settings fields — but not the
temperature — and which has no `query_info` key. -/
theorem query_error_fallback_message
    (s : AppState) (prompt e now : String) (he : e ≠ "") :
    QueryFailureSpec s prompt e now := by
  refine ⟨rfl, rfl, rfl, rfl, ?_, rfl, rfl, rfl, rfl, rfl, rfl⟩
  simp [fallbackMessage, he]

/-- Witness for C2 (amended) at a concrete session. -/
theorem query_error_fallback_message_witness :
    "boom" ≠ "" ∧ QueryFailureSpec readyDemo "hi" "boom" "00:00:00" :=
  ⟨by decide,
    query_error_fallback_message readyDemo "hi" "boom" "00:00:00" (by decide)⟩

/-- Counterexample to C2 as stated: the claim requires the fallback
message's metadata to contain the current Settings fields, but the code
(source lines 725-734) omits `temperature` on the error path — at this
concrete input the appended message's metadata has no temperature key
even though the current settings carry one. -/
theorem query_error_metadata_lacks_temperature :
    ((handle_chat_input readyDemo "hi" (QueryOutcome.exn "boom")
        "00:00:00").messages.map (fun m => m.metadata.temperature)) =
      [none] ∧
    (none : Option ℚ) ≠ some readyDemo.settings.temperature :=
  ⟨rfl, by simp⟩

/-! ### C10: the query exception path logs the same error twice -/

/-- Whether an activity entry is "[!]"-prefixed. -/
def startsBang (x : String) : Bool := x.data.take 3 == ['[', '!', ']']

theorem data_take3_append (a b : String) (h : 3 ≤ a.data.length) :
    (a ++ b).data.take 3 = a.data.take 3 := by
  rw [String.data_append]
  exact List.take_append_of_le_length h

theorem startsBang_questionLog (prompt : String) :
    startsBang (questionLog prompt) = false := by
  rw [startsBang, questionLog, data_take3_append _ _ (by decide)]
  decide

theorem startsBang_errorLogMsg (e : String) :
    startsBang (errorLogMsg e) = true := by
  rw [startsBang, errorLogMsg, data_take3_append _ _ (by decide)]
  decide

theorem add_activity_log_three (L : List String) (a b c : String) :
    add_activity_log c (add_activity_log b (add_activity_log a L)) =
      lastN 50 (L ++ [a, b, c]) := by
  simp only [add_activity_log, lastN_append_lastN, List.append_assoc,
    List.cons_append, List.nil_append]

set_option maxRecDepth 4096 in
/-- C10: when the engine's query call raises, exactly two "[!]"-prefixed
entries carrying the same rendered error text are appended to the
activity log in that turn — the intermediate state `t` (reached after
the first log line) shows one of them precedes the fallback message's
append to history and the other follows it.  The "[?]" question entry
appended at the start of the turn is not "[!]"-prefixed. -/
theorem query_error_double_log (s : AppState) (prompt e now : String) :
    (handle_chat_input s prompt (QueryOutcome.exn e) now).activity_log =
      lastN 50 (s.activity_log ++
        [questionLog prompt, errorLogMsg e, errorLogMsg e]) ∧
    ([questionLog prompt, errorLogMsg e, errorLogMsg e].countP
      startsBang) = 2 ∧
    ∃ t : AppState,
      t.messages = s.messages ∧
      t.activity_log =
        lastN 50 (s.activity_log ++ [questionLog prompt, errorLogMsg e]) ∧
      (handle_chat_input s prompt (QueryOutcome.exn e) now).messages =
        t.messages ++ [fallbackMessage s.settings e] ∧
      (handle_chat_input s prompt (QueryOutcome.exn e) now).activity_log =
        lastN 50 (t.activity_log ++ [errorLogMsg e]) := by
  refine ⟨add_activity_log_three s.activity_log _ _ _, ?_, ?_⟩
  · simp [List.countP_cons, startsBang_questionLog, startsBang_errorLogMsg]
  · refine ⟨logA (errorLogMsg e) (logA (questionLog prompt) s),
      rfl, ?_, rfl, rfl⟩
    simp only [logA, add_activity_log, lastN_append_lastN,
      List.append_assoc, List.cons_append, List.nil_append]

/-! ### C9: insertion with no engine instance is a silent no-op -/

/-- C9: when the session's engine reference is `None` (the engine was
never successfully initialized), `handle_insert` returns the state
completely unchanged: no credential check, no engine call, no activity
log entry, no error surfaced. -/
theorem insert_without_engine_noop
    (s : AppState) (content : String) (probe : ProbeOutcome)
    (ins : InsertOutcome) (h : s.rag = none) :
    handle_insert s content probe ins = s := by
  rw [handle_insert, h]

/-- Witness for C9 at a concrete session. -/
theorem insert_without_engine_noop_witness :
    initDemo.rag = none ∧
    handle_insert initDemo "Some document." (ProbeOutcome.ok "r")
      (InsertOutcome.ok true) = initDemo :=
  ⟨rfl, insert_without_engine_noop initDemo "Some document."
    (ProbeOutcome.ok "r") (InsertOutcome.ok true) rfl⟩

/-! ### C7: empty insert is a caller no-op; zero extracted relationships
is a soft failure -/

/-- Whether an activity entry is "[-]"-prefixed. -/
def startsDash (x : String) : Bool := x.data.take 3 == ['[', '-', ']']

theorem startsDash_testLogMsg (resp : String) :
    startsDash (testLogMsg resp) = false := by
  rw [startsDash, testLogMsg]
  rw [show "[T] Test prompt: What is LightRAG?\n[@] " ++ pyTake 100 resp
        ++ "..." = "[T] Test prompt: What is LightRAG?\n[@] " ++
        (pyTake 100 resp ++ "...") from (String.append_assoc _ _ _)]
  rw [data_take3_append _ _ (by decide)]
  decide

theorem startsDash_processingLogMsg (content : String) :
    startsDash (processingLogMsg content) = false := by
  rw [startsDash, processingLogMsg]
  rw [show "[*] Processing content (" ++ toString content.length ++
        " chars)..." = "[*] Processing content (" ++
        (toString content.length ++ " chars)...") from
        (String.append_assoc _ _ _)]
  rw [data_take3_append _ _ (by decide)]
  decide

/-- What the zero-relationships insert ends in; see
`insert_empty_noop_and_soft_failure`. -/
def InsertSoftFailSpec (s : AppState) (content resp : String) : Prop :=
  (handle_insert s content (ProbeOutcome.ok resp)
      (InsertOutcome.ok false)).messages = s.messages ∧
  (handle_insert s content (ProbeOutcome.ok resp)
      (InsertOutcome.ok false)).rag = s.rag ∧
  (handle_insert s content (ProbeOutcome.ok resp)
      (InsertOutcome.ok false)).initialized = s.initialized ∧
  (handle_insert s content (ProbeOutcome.ok resp)
      (InsertOutcome.ok false)).constructions = s.constructions ∧
  (handle_insert s content (ProbeOutcome.ok resp)
      (InsertOutcome.ok false)).settings = s.settings ∧
  (handle_insert s content (ProbeOutcome.ok resp)
      (InsertOutcome.ok false)).errors_shown =
    s.errors_shown ++ [noRelationshipsErrorMsg] ∧
  (handle_insert s content (ProbeOutcome.ok resp)
      (InsertOutcome.ok false)).activity_log =
    lastN 50 (s.activity_log ++
      [testLogMsg resp, processingLogMsg content, noRelationshipsLogMsg]) ∧
  ([testLogMsg resp, processingLogMsg content,
      noRelationshipsLogMsg].countP startsDash) = 1

set_option maxRecDepth 4096 in
/-- C7: inserting empty text is a no-op at the caller level (the paste
tab's `if text_input:` guard never calls `handle_insert`, so no error
and no engine call); inserting non-empty content for which the engine
reports zero extracted relationships is a soft failure — the
no-relationships error is surfaced, exactly one "[-]"-prefixed entry is
appended to the activity log for the turn, and no state is rolled back
(history, handle, settings, flags and construction count all keep their
prior values). -/
theorem insert_empty_noop_and_soft_failure
    (s : AppState) (content resp : String) (hdl : EngineHandle)
    (probe : ProbeOutcome) (ins : InsertOutcome)
    (hrag : s.rag = some hdl) (hkey : s.settings.api_key ≠ "") :
    insert_clicked s "" probe ins = s ∧
      InsertSoftFailSpec s content resp := by
  constructor
  · rw [insert_clicked]
    simp
  · rw [InsertSoftFailSpec]
    have hrw : handle_insert s content (ProbeOutcome.ok resp)
        (InsertOutcome.ok false) =
        logA noRelationshipsLogMsg (showError noRelationshipsErrorMsg
          (logA (processingLogMsg content)
            (logA (testLogMsg resp) s))) := by
      rw [handle_insert, hrag]
      simp [test_api_key, hkey]
    rw [hrw]
    simp only [logA_messages, logA_rag, logA_initialized,
      logA_constructions, logA_settings, logA_errors_shown,
      logA_activity_log, showError_messages, showError_rag,
      showError_initialized, showError_constructions, showError_settings,
      showError_activity_log, showError_errors_shown, eq_self_iff_true,
      true_and, and_true]
    constructor
    · simp only [add_activity_log, lastN_append_lastN,
        List.append_assoc, List.cons_append, List.nil_append]
    · have h1 : startsDash noRelationshipsLogMsg = true := by decide
      simp [List.countP_cons, startsDash_testLogMsg,
        startsDash_processingLogMsg, h1]

/-- Witness for C7 at a concrete session. -/
theorem insert_empty_noop_and_soft_failure_witness :
    readyDemo.rag = some ⟨demoSettings⟩ ∧
    readyDemo.settings.api_key ≠ "" ∧
    (insert_clicked readyDemo "" (ProbeOutcome.ok "ok")
        (InsertOutcome.ok false) = readyDemo ∧
      InsertSoftFailSpec readyDemo "A document body." "ok") :=
  ⟨rfl, by decide,
    insert_empty_noop_and_soft_failure readyDemo "A document body." "ok"
      ⟨demoSettings⟩ (ProbeOutcome.ok "ok") (InsertOutcome.ok false)
      rfl (by decide)⟩

/-! ### C8: markdown export -/

theorem joinLines_singleton (x : String) : joinLines [x] = x := rfl

theorem joinLines_cons_cons (x y : String) (rest : List String) :
    joinLines (x :: y :: rest) = x ++ "\n" ++ joinLines (y :: rest) := rfl

theorem joinLines_append :
    ∀ (A B : List String), A ≠ [] → B ≠ [] →
      joinLines (A ++ B) = joinLines A ++ "\n" ++ joinLines B := by
  intro A
  induction A with
  | nil => intro B h _; exact absurd rfl h
  | cons a as ih =>
      intro B _ hB
      cases as with
      | nil =>
          cases B with
          | nil => exact absurd rfl hB
          | cons b bs => simp [joinLines_cons_cons, joinLines_singleton]
      | cons a2 as2 =>
          have h2 := ih B (by simp) hB
          simp only [List.cons_append] at h2 ⊢
          rw [joinLines_cons_cons, h2, joinLines_cons_cons]
          simp [String.append_assoc]

theorem joinLines_shape (hd1 hd2 : String) (rest : List String) :
    ∃ w : String, joinLines (hd1 :: hd2 :: rest) = hd1 ++ "\n" ++ (hd2 ++ w) := by
  cases rest with
  | nil =>
      refine ⟨"", ?_⟩
      rw [joinLines_cons_cons]
      simp [joinLines]
  | cons r rs =>
      refine ⟨"\n" ++ joinLines (r :: rs), ?_⟩
      rw [joinLines_cons_cons, joinLines_cons_cons]
      simp [String.append_assoc]

theorem msgLines_content_infix (m : Message) :
    ∃ u v : String, joinLines (msgLines m) = u ++ (m.content ++ v) := by
  rw [msgLines]
  simp only [List.cons_append, List.nil_append]
  obtain ⟨w, hw⟩ := joinLines_shape
    ("\n### " ++ roleLabel m.role ++ " (" ++
      m.metadata.timestamp.getD "N/A" ++ ")")
    ("\n" ++ m.content ++ "\n")
    (if m.role = Role.assistant then
      (match m.metadata.query_info with
       | some q => ["\n> " ++ q]
       | none => []) ++
      (match m.metadata.error with
       | some e => ["\n> Error: " ++ e]
       | none => [])
     else [])
  rw [hw]
  refine ⟨"\n### " ++ roleLabel m.role ++ " (" ++
    m.metadata.timestamp.getD "N/A" ++ ")" ++ "\n" ++ "\n",
    "\n" ++ w, ?_⟩
  simp only [String.append_assoc]

/-- C8: exporting the conversation fails with the empty-history error
when the history is empty; on a two-message history it produces a string
that starts with the rendered header (export timestamp plus the current
Settings snapshot) followed by both message contents in insertion
order. -/
theorem handle_chat_download_spec (s : AppState) (now : String) :
    (s.messages = [] →
      handle_chat_download s now = Except.error ExportError.emptyHistory) ∧
    (∀ m1 m2 : Message, s.messages = [m1, m2] →
      ∃ b c d : String,
        handle_chat_download s now =
          Except.ok (joinLines (headerLines s.settings now) ++ b ++
            (m1.content ++ (c ++ (m2.content ++ d))))) := by
  constructor
  · intro h
    simp [handle_chat_download, h]
  · intro m1 m2 h
    rw [handle_chat_download, h]
    simp only [List.isEmpty_cons, Bool.false_eq_true, if_false,
      List.map_cons, List.map_nil, List.join, List.flatten_cons,
      List.flatten_nil, List.append_nil]
    rw [joinLines_append (headerLines s.settings now)
      (msgLines m1 ++ msgLines m2) (by simp [headerLines])
      (by simp [msgLines])]
    rw [joinLines_append (msgLines m1) (msgLines m2)
      (by simp [msgLines]) (by simp [msgLines])]
    obtain ⟨u1, v1, h1⟩ := msgLines_content_infix m1
    obtain ⟨u2, v2, h2⟩ := msgLines_content_infix m2
    rw [h1, h2]
    refine ⟨"\n" ++ u1, v1 ++ ("\n" ++ u2), v2, ?_⟩
    simp [String.append_assoc]

def demoUserMsg : Message :=
  { role := .user, content := "hello",
    metadata := { timestamp := some "10:00:00" } }

def demoAssistantMsg : Message :=
  { role := .assistant, content := "world",
    metadata := { timestamp := some "10:00:05",
                  query_info := some "hybrid@gpt-4o-mini-2024-07-18 #00000000" } }

def twoMsgDemo : AppState :=
  { readyDemo with messages := [demoUserMsg, demoAssistantMsg] }

/-- Witness for C8: the empty-history failure at `readyDemo` (whose chat
history is empty) and the two-message export at `twoMsgDemo`. -/
theorem handle_chat_download_spec_witness :
    (readyDemo.messages = [] ∧
      handle_chat_download readyDemo "2024-11-09 12:00:00" =
        Except.error ExportError.emptyHistory) ∧
    (twoMsgDemo.messages = [demoUserMsg, demoAssistantMsg] ∧
      ∃ b c d : String,
        handle_chat_download twoMsgDemo "2024-11-09 12:00:00" =
          Except.ok (joinLines (headerLines twoMsgDemo.settings
              "2024-11-09 12:00:00") ++ b ++
            (demoUserMsg.content ++ (c ++ (demoAssistantMsg.content ++ d))))) :=
  ⟨⟨rfl, (handle_chat_download_spec readyDemo "2024-11-09 12:00:00").1 rfl⟩,
   ⟨rfl, (handle_chat_download_spec twoMsgDemo "2024-11-09 12:00:00").2
      demoUserMsg demoAssistantMsg rfl⟩⟩
